import Mathlib

/-!
Verification of the Instagram profiles scraper (`src/main.py`).

The program fetches public profile metadata for a list of usernames from a
single HTTP JSON endpoint, normalizes response/error shapes into one result
record per username, and bounds concurrency with an asyncio semaphore.

We shallowly embed the program:
  * Python/JSON values are the inductive `Json`; Python `dict.get`,
    truthiness and `str()` are modelled by `pyGet`, `truthy` and `pyStr`.
  * The network is an `HttpOutcome` (a transport exception or a response
    whose body either parses to `Json` or fails).
  * `fetch_profile` is a pure function of the outcome.  Python statements
    that can raise (attribute access on non-dicts) live in `Except String`,
    where `Except.error` models an uncaught Python exception escaping the
    function.
  * `run_scrape`'s result collection (`asyncio.gather` over the task list)
    is `gatherResults`; its semaphore-bounded scheduling is the transition
    system `SchedStep` over `SchedState`.
  * `main`'s input cleaning and dispatch is `clean_usernames` / `main_run`.
-/

/-- JSON values, doubling as the Python values the program manipulates
(dicts are association lists in insertion order, as in Python). -/
inductive Json where
  | null : Json
  | bool : Bool → Json
  | num : Int → Json
  | str : String → Json
  | arr : List Json → Json
  | obj : List (String × Json) → Json

/-- Python dict lookup on an association list (first binding wins). -/
def jlookup (fields : List (String × Json)) (k : String) : Option Json :=
  (fields.find? (fun p => p.1 == k)).map (fun p => p.2)

/-- Python truthiness of a value (`if data.get("error"):`, `x or y`). -/
def truthy : Json → Bool
  | Json.null => false
  | Json.bool b => b
  | Json.num n => n != 0
  | Json.str s => s != ""
  | Json.arr l => !l.isEmpty
  | Json.obj l => !l.isEmpty

/-- `isinstance(x, dict)`. -/
def Json.isDict : Json → Bool
  | Json.obj _ => true
  | _ => false

/-- Python type name, used in the AttributeError message. -/
def pyTypeName : Json → String
  | Json.null => "NoneType"
  | Json.bool _ => "bool"
  | Json.num _ => "int"
  | Json.str _ => "str"
  | Json.arr _ => "list"
  | Json.obj _ => "dict"

/-- Python `x.get(k, d)`: defined on dicts, raises `AttributeError` on any
other value (modelled as `Except.error`).  `x.get(k)` is `pyGet x k .null`
since Python defaults the second argument to `None`. -/
def pyGet (j : Json) (k : String) (d : Json) : Except String Json :=
  match j with
  | Json.obj fields => Except.ok ((jlookup fields k).getD d)
  | _ => Except.error ("AttributeError: " ++ pyTypeName j ++ " object has no attribute get")

/-- Python `x or y` on values: `y` when `x` is falsy, else `x`. -/
def pyOr (x y : Json) : Json :=
  if truthy x then x else y

mutual

/-- Python `repr()` of a value (used by `str()` inside containers). -/
def pyRepr : Json → String
  | Json.null => "None"
  | Json.bool true => "True"
  | Json.bool false => "False"
  | Json.num n => toString n
  | Json.str s => "\x27" ++ s ++ "\x27"
  | Json.arr l => "[" ++ pyReprArr l ++ "]"
  | Json.obj l => "\x7b" ++ pyReprObj l ++ "\x7d"

/-- Comma-separated `repr` of list elements. -/
def pyReprArr : List Json → String
  | [] => ""
  | [x] => pyRepr x
  | x :: y :: xs => pyRepr x ++ ", " ++ pyReprArr (y :: xs)

/-- Comma-separated `repr` of dict entries. -/
def pyReprObj : List (String × Json) → String
  | [] => ""
  | [(k, v)] => "\x27" ++ k ++ "\x27: " ++ pyRepr v
  | (k, v) :: e :: xs => "\x27" ++ k ++ "\x27: " ++ pyRepr v ++ ", " ++ pyReprObj (e :: xs)

end

/-- Python `str()` of a value, as interpolated by an f-string. -/
def pyStr : Json → String
  | Json.str s => s
  | j => pyRepr j

/-- httpx timeout triple (`httpx.Timeout(timeout=, connect=, read=)`). -/
structure Timeout where
  timeout : Int
  connect : Int
  read : Int

def SOCK_CONNECT_TIMEOUT : Int := 4

def SOCK_READ_TIMEOUT : Int := 8

def TOTAL_TIMEOUT : Int := 15

def HTTPX_TIMEOUT : Timeout :=
  { timeout := TOTAL_TIMEOUT, connect := SOCK_CONNECT_TIMEOUT, read := SOCK_READ_TIMEOUT }

def BASE_HEADERS : List (String × String) :=
  [("x-ig-app-id", "936619743392459")]

/-- The proxy-rotation collaborator: yields a connection URL on demand
(`proxy_config.new_url()`). -/
structure ProxyConfig where
  new_url : String

/-- The transport failures `fetch_profile` distinguishes: the four named
httpx exception classes it catches, plus the catch-all `except Exception`
carrying the exception's message (`str(exc)`). -/
inductive TransportError where
  | connectTimeout : TransportError
  | connectError : TransportError
  | writeTimeout : TransportError
  | readTimeout : TransportError
  | other : String → TransportError

/-- An HTTP response: status code plus the result of `resp.json()`
(`Except.error` when the body fails to parse). -/
structure Response where
  status_code : Int
  body : Except String Json

/-- Everything the network can do to one request. -/
inductive HttpOutcome where
  | exc : TransportError → HttpOutcome
  | resp : Response → HttpOutcome

/-- The per-username result dict.  A field of value `none` models a key
that is absent from the returned dict; `some v` models the key bound to
the Python value `v` (which may itself be `None`, i.e. `Json.null`). -/
structure FetchResult where
  username : String
  error : Option String := none
  status_code : Option Json := none
  proxy : Option String
  user_id : Option Json := none
  followers_count : Option Json := none
  following_count : Option Json := none
  full_name : Option Json := none
  is_private : Option Json := none
  is_verified : Option Json := none
  profile_pic_url : Option Json := none
  raw : Option Json := none
  status : Option String := none

/-- `fetch_profile(username, headers, timeout, proxy_config)` with the
network's behaviour supplied as `outcome`.  `Except.error` models a Python
exception escaping the function (which the source does not catch once the
request itself has returned). -/
def fetch_profile (username : String) (headers : List (String × String)) (timeout : Timeout)
    (proxy_config : Option ProxyConfig) (outcome : HttpOutcome) : Except String FetchResult :=
  let proxy_url : Option String := proxy_config.map ProxyConfig.new_url
  match outcome with
  | HttpOutcome.exc TransportError.connectTimeout =>
      Except.ok { username := username, error := some "Proxy connect timeout", proxy := proxy_url }
  | HttpOutcome.exc TransportError.connectError =>
      Except.ok { username := username, error := some "Proxy connect error", proxy := proxy_url }
  | HttpOutcome.exc TransportError.writeTimeout =>
      Except.ok { username := username, error := some "Proxy write timeout", proxy := proxy_url }
  | HttpOutcome.exc TransportError.readTimeout =>
      Except.ok { username := username, error := some "Proxy read timeout", proxy := proxy_url }
  | HttpOutcome.exc (TransportError.other msg) =>
      Except.ok { username := username, error := some msg, proxy := proxy_url }
  | HttpOutcome.resp r =>
    if r.status_code = 401 then
      Except.ok { username := username, error := some "Unauthorized error",
                  status_code := some (Json.num 401), proxy := proxy_url }
    else if r.status_code ≠ 200 then
      Except.ok { username := username,
                  error := some ("Failed to fetch user details: " ++ toString r.status_code),
                  status_code := some (Json.num r.status_code), proxy := proxy_url }
    else
      match r.body with
      | Except.error exc =>
          Except.ok { username := username, error := some ("Invalid JSON: " ++ exc),
                      proxy := proxy_url }
      | Except.ok data =>
        -- `if data.get("error"):` -- note: evaluated before any isinstance check,
        -- so a non-dict body raises AttributeError here.
        match pyGet data "error" Json.null with
        | Except.error e => Except.error e
        | Except.ok errVal =>
          if truthy errVal then
            match pyGet data "status_code" (Json.num 500) with
            | Except.error e => Except.error e
            | Except.ok sc =>
                Except.ok { username := username,
                            error := some ("Failed to fetch user details: " ++ pyStr errVal),
                            status_code := some sc, proxy := proxy_url }
          else
            -- user = data.get("data", \x7b\x7d).get("user", \x7b\x7d) if isinstance(data, dict) else \x7b\x7d
            match (if data.isDict then
                     match pyGet data "data" (Json.obj []) with
                     | Except.error e => Except.error e
                     | Except.ok d1 => pyGet d1 "user" (Json.obj [])
                   else Except.ok (Json.obj [])) with
            | Except.error e => Except.error e
            | Except.ok user =>
              match pyGet user "id" Json.null with
              | Except.error e => Except.error e
              | Except.ok uid =>
              match pyGet user "edge_followed_by" (Json.obj []) with
              | Except.error e => Except.error e
              | Except.ok efb =>
              match pyGet efb "count" Json.null with
              | Except.error e => Except.error e
              | Except.ok followers =>
              match pyGet user "edge_follow" (Json.obj []) with
              | Except.error e => Except.error e
              | Except.ok ef =>
              match pyGet ef "count" Json.null with
              | Except.error e => Except.error e
              | Except.ok following =>
              match pyGet user "full_name" Json.null with
              | Except.error e => Except.error e
              | Except.ok fullName =>
              match pyGet user "is_private" Json.null with
              | Except.error e => Except.error e
              | Except.ok isPriv =>
              match pyGet user "is_verified" Json.null with
              | Except.error e => Except.error e
              | Except.ok isVer =>
              match pyGet user "profile_pic_url_hd" Json.null with
              | Except.error e => Except.error e
              | Except.ok picHd =>
              match pyGet user "profile_pic_url" Json.null with
              | Except.error e => Except.error e
              | Except.ok pic =>
                Except.ok { username := username,
                            user_id := some uid,
                            followers_count := some followers,
                            following_count := some following,
                            full_name := some fullName,
                            is_private := some isPriv,
                            is_verified := some isVer,
                            profile_pic_url := some (pyOr picHd pic),
                            raw := some data,
                            status := some "ok",
                            proxy := proxy_url }

/-- The output payload of `run_scrape`: `\x7b"results": [...]\x7d`. -/
structure ScrapeOutput where
  results : List FetchResult

/-- `asyncio.gather(*tasks)` over the per-username task list: one result per
task, in task-list order; an exception escaping any task propagates out of
the gather (here: short-circuits to `Except.error`). -/
def gatherResults (f : String → Except String FetchResult) : List String → Except String (List FetchResult)
  | [] => Except.ok []
  | u :: us =>
    match f u with
    | Except.error e => Except.error e
    | Except.ok r =>
      match gatherResults f us with
      | Except.error e => Except.error e
      | Except.ok rs => Except.ok (r :: rs)

/-- The default of `run_scrape`'s `max_concurrency` parameter. -/
def run_scrape_default_max_concurrency : Int := 10

/-- The value the semaphore is constructed with:
`asyncio.Semaphore(max(1, max_concurrency))`. -/
def semCapacity (max_concurrency : Int) : Int :=
  max 1 max_concurrency

/-- `run_scrape(usernames, headers, timeout, proxy_config, max_concurrency)`,
with the network abstracted as a per-username `oracle`.  Result collection is
`asyncio.gather` over the tasks in input order; the semaphore only schedules
the tasks (modelled separately by `SchedStep`) and does not affect which
results are collected. -/
def run_scrape (usernames : List String) (headers : List (String × String)) (timeout : Timeout)
    (proxy_config : Option ProxyConfig) (oracle : String → HttpOutcome)
    (max_concurrency : Int) : Except String ScrapeOutput :=
  match gatherResults
      (fun u => fetch_profile u headers timeout proxy_config (oracle u)) usernames with
  | Except.error e => Except.error e
  | Except.ok rs => Except.ok { results := rs }

/-- The state of one logical task in `run_scrape`'s scheduler:
`pending → in-flight → done` (the terminal state carries the fetch's
result record, success or classified failure). -/
inductive TaskState where
  | pending : TaskState
  | inFlight : TaskState
  | done : FetchResult → TaskState

/-- Whether a task currently holds a semaphore slot. -/
def TaskState.isInFlight : TaskState → Bool
  | TaskState.inFlight => true
  | _ => false

/-- Scheduler state: one task per input username plus the semaphore
capacity (the only shared mutable state). -/
structure SchedState where
  cap : Nat
  tasks : List TaskState

/-- Number of fetches simultaneously in flight. -/
def inFlightCount (s : SchedState) : Nat :=
  s.tasks.countP (fun t => t.isInFlight)

/-- Task `i` acquires a semaphore slot (`async with sem:`). -/
def startTask (s : SchedState) (i : Nat) : SchedState :=
  { s with tasks := s.tasks.set i TaskState.inFlight }

/-- Task `i` finishes its fetch with result `r` and releases its slot. -/
def completeTask (s : SchedState) (i : Nat) (r : FetchResult) : SchedState :=
  { s with tasks := s.tasks.set i (TaskState.done r) }

/-- One scheduler step: a pending task may start only while fewer than
`cap` fetches are in flight (semaphore acquire); an in-flight task may
finish with any result, releasing its slot.  No other transition exists:
in particular no step removes or restarts another task. -/
inductive SchedStep : SchedState → SchedState → Prop where
  | acquire (s : SchedState) (i : Nat)
      (hp : s.tasks.get? i = some TaskState.pending)
      (hcap : inFlightCount s < s.cap) :
      SchedStep s (startTask s i)
  | complete (s : SchedState) (i : Nat) (r : FetchResult)
      (hf : s.tasks.get? i = some TaskState.inFlight) :
      SchedStep s (completeTask s i r)

/-- The scheduler state `run_scrape` starts from: every username pending,
semaphore capacity `max(1, max_concurrency)`. -/
def run_scrape_sched_init (usernames : List String) (max_concurrency : Int) : SchedState :=
  { cap := (semCapacity max_concurrency).toNat,
    tasks := usernames.map (fun _ => TaskState.pending) }

/-- Python `s.strip()`: drop leading and trailing whitespace. -/
def pyStrip (s : String) : String :=
  String.mk (((s.data.dropWhile Char.isWhitespace).reverse.dropWhile Char.isWhitespace).reverse)

/-- `main`'s input cleaning:
`[u.strip() for u in raw_usernames if isinstance(u, str) and u.strip()]`
(a stripped string is truthy exactly when it is non-empty). -/
def clean_usernames (raw_usernames : List Json) : List String :=
  raw_usernames.filterMap (fun u =>
    match u with
    | Json.str s => if pyStrip s ≠ "" then some (pyStrip s) else none
    | _ => none)

/-- What `main` stores as OUTPUT: either the input-error payload
(no fetch is attempted) or `run_scrape`'s output. -/
inductive MainResult where
  | inputError : String → MainResult
  | output : Except String ScrapeOutput → MainResult

/-- `main`'s logic after input loading: clean the raw username list; if
nothing survives, write the input-error payload and return without
fetching; otherwise run the scrape with `BASE_HEADERS`, `HTTPX_TIMEOUT`
and `max_concurrency = 10`. -/
def main_run (raw_usernames : List Json) (proxy_config : Option ProxyConfig)
    (oracle : String → HttpOutcome) : MainResult :=
  let usernames := clean_usernames raw_usernames
  if usernames.isEmpty then
    MainResult.inputError "usernames list is required"
  else
    MainResult.output (run_scrape usernames BASE_HEADERS HTTPX_TIMEOUT proxy_config oracle 10)

/-- Spec side (§4.4.1 step 8): the nested user object of a parsed body,
"defaulting to an empty object if any level is absent".  Used to compare
the code's dynamic `data.get("data", ...).get("user", ...)` chain against
the spec's description; levels that are present but not objects are not
covered by the spec's wording and are excluded by hypothesis where this
definition is used. -/
def spec_nested_user (fields : List (String × Json)) : List (String × Json) :=
  match jlookup fields "data" with
  | some (Json.obj df) =>
    match jlookup df "user" with
    | some (Json.obj uf) => uf
    | _ => []
  | _ => []

/-- Spec side: the follower/following count read through an edge object
that defaults to empty when absent (`user.get(k, ...).get("count")`). -/
def spec_edge_count (uf : List (String × Json)) (k : String) : Json :=
  match jlookup uf k with
  | some (Json.obj l) => (jlookup l "count").getD Json.null
  | _ => Json.null

/-- The classification table of transport failures: the error message each
`except` clause of `fetch_profile` returns. -/
def transport_message : TransportError → String
  | TransportError.connectTimeout => "Proxy connect timeout"
  | TransportError.connectError => "Proxy connect error"
  | TransportError.writeTimeout => "Proxy write timeout"
  | TransportError.readTimeout => "Proxy read timeout"
  | TransportError.other msg => msg

/-- Shape check under which the success branch's dynamic lookups are
defined: the "data" level, when present, is an object, and within it the
"user" level, when present, is an object. -/
def dataShapeOk (fields : List (String × Json)) : Bool :=
  match jlookup fields "data" with
  | none => true
  | some (Json.obj df) =>
    match jlookup df "user" with
    | none => true
    | some (Json.obj _) => true
    | some _ => false
  | some _ => false

/-- Shape check on the user object: its two edge fields, when present,
are objects (so `.get("count")` on them is defined). -/
def userShapeOk (uf : List (String × Json)) : Bool :=
  (match jlookup uf "edge_followed_by" with
   | none => true
   | some (Json.obj _) => true
   | some _ => false) &&
  (match jlookup uf "edge_follow" with
   | none => true
   | some (Json.obj _) => true
   | some _ => false)

/-- A fixed demo network: "alice" resolves to a full 200 profile, every
other username times out while connecting.  Used to evaluate the theorems
on a concrete run. -/
def demoOracle (u : String) : HttpOutcome :=
  if u = "alice" then
    HttpOutcome.resp
      { status_code := 200,
        body := Except.ok (Json.obj
          [("data", Json.obj
            [("user", Json.obj
              [("id", Json.str "17841400000000000"),
               ("full_name", Json.str "Alice"),
               ("edge_followed_by", Json.obj [("count", Json.num 120)]),
               ("edge_follow", Json.obj [("count", Json.num 80)]),
               ("profile_pic_url_hd", Json.str "https://cdn/pic_hd.jpg"),
               ("profile_pic_url", Json.str "https://cdn/pic.jpg")])])]) }
  else
    HttpOutcome.exc TransportError.connectTimeout

/-- The result list of the demo run over `["alice", "bob"]` ("bob"'s fetch
fails with a connect timeout and must still contribute an entry). -/
def demoResults : List FetchResult :=
  match run_scrape ["alice", "bob"] BASE_HEADERS HTTPX_TIMEOUT none demoOracle 10 with
  | Except.ok o => o.results
  | Except.error _ => []

/-- The demo scheduler's initial state: two tasks, capacity 1. -/
def demoSchedInit : SchedState :=
  run_scrape_sched_init ["alice", "bob"] 1

/-- The demo scheduler after task 0 acquired the single semaphore slot. -/
def demoSchedMid : SchedState :=
  startTask demoSchedInit 0

/-- A user object whose high-resolution picture URL key is present but
bound to the empty string. -/
def picUserFields : List (String × Json) :=
  [("profile_pic_url_hd", Json.str ""), ("profile_pic_url", Json.str "https://cdn/std.jpg")]

/-- A 200 body wrapping `picUserFields` under data.user. -/
def picBody : Json :=
  Json.obj [("data", Json.obj [("user", Json.obj picUserFields)])]

/-! ## Helper lemmas -/

theorem pyGet_obj (fields : List (String × Json)) (k : String) (d : Json) :
    pyGet (Json.obj fields) k d = Except.ok ((jlookup fields k).getD d) := rfl

theorem append_left_ne_empty (s t : String) (h : s ≠ "") : s ++ t ≠ "" := by
  intro he
  apply h
  have hl := congrArg String.length he
  rw [String.length_append] at hl
  have h2 : s.length = 0 := by
    have h0 : ("" : String).length = 0 := rfl
    omega
  cases s with
  | mk data =>
    cases data with
    | nil => rfl
    | cons c cs => simp [String.length] at h2

/-- Every branch of `fetch_profile` echoes the input username. -/
theorem fetch_profile_ok_username (u : String) (hs : List (String × String)) (t : Timeout)
    (pc : Option ProxyConfig) (o : HttpOutcome) (r : FetchResult)
    (h : fetch_profile u hs t pc o = Except.ok r) : r.username = u := by
  simp only [fetch_profile] at h
  repeat' split at h
  all_goals first
    | (injection h with h2; subst h2; rfl)
    | exact Except.noConfusion h

/-- `asyncio.gather` over the task list: when it returns, it returns one
result per username, positionally, each produced by that username's fetch. -/
theorem gatherResults_ok_spec (f : String → Except String FetchResult) :
    ∀ (us : List String) (rs : List FetchResult), gatherResults f us = Except.ok rs →
      rs.length = us.length ∧
      ∀ i u, us.get? i = some u → ∃ r, rs.get? i = some r ∧ f u = Except.ok r := by
  intro us
  induction us with
  | nil =>
    intro rs h
    simp only [gatherResults] at h
    injection h with h2
    subst h2
    refine ⟨rfl, ?_⟩
    intro i u hu
    simp at hu
  | cons u us ih =>
    intro rs h
    simp only [gatherResults] at h
    cases hfu : f u with
    | error e => rw [hfu] at h; exact Except.noConfusion h
    | ok r =>
      rw [hfu] at h
      cases hrec : gatherResults f us with
      | error e => rw [hrec] at h; exact Except.noConfusion h
      | ok rs2 =>
        rw [hrec] at h
        injection h with h2
        subst h2
        obtain ⟨hlen, hget⟩ := ih rs2 hrec
        refine ⟨by simp [hlen], ?_⟩
        intro i v hv
        cases i with
        | zero =>
          simp only [List.get?] at hv ⊢
          injection hv with hv2
          subst hv2
          exact ⟨r, rfl, hfu⟩
        | succ n =>
          simp only [List.get?] at hv ⊢
          exact hget n v hv

/-! ## C2: status/error dichotomy -/

/-- Claim C2 (amended): every `FetchResult` that `fetch_profile` returns
has exactly one of `status == "ok"` (and then no `error` key) or an
`error` key present (and then no `status` key); the error message can be
empty only in the catch-all transport branch, when the caught exception's
own message is empty. -/
theorem fetch_result_status_error_exactly_one (u : String) (hs : List (String × String))
    (t : Timeout) (pc : Option ProxyConfig) (o : HttpOutcome) (r : FetchResult)
    (h : fetch_profile u hs t pc o = Except.ok r) :
    ((r.status = some "ok" ∧ r.error = none) ∨ (r.status = none ∧ ∃ e, r.error = some e)) ∧
    (∀ e, r.error = some e → e = "" → o = HttpOutcome.exc (TransportError.other "")) := by
  simp only [fetch_profile] at h
  repeat' split at h
  all_goals first
    | exact Except.noConfusion h
    | (injection h with h2; subst h2;
       refine ⟨?_, ?_⟩
       · first
           | exact Or.inl ⟨rfl, rfl⟩
           | exact Or.inr ⟨rfl, _, rfl⟩
       · intro e he h0
         subst h0
         first
           | exact Option.noConfusion he
           | (injection he with h3;
              first
                | exact absurd h3 (by decide)
                | exact absurd h3 (append_left_ne_empty _ _ (by decide))
                | rw [h3]))

/-- Claim C2, counterexample to the claim as stated: the catch-all
transport branch returns `str(exc)` as the error, and an exception whose
message is empty yields a result with neither `status == "ok"` nor a
non-empty error. -/
theorem fetch_result_empty_error_counterexample :
    ∃ r, fetch_profile "alice" BASE_HEADERS HTTPX_TIMEOUT none
        (HttpOutcome.exc (TransportError.other "")) = Except.ok r ∧
      ¬(r.status = some "ok" ∨ ∃ e, r.error = some e ∧ e ≠ "") := by
  refine ⟨_, rfl, ?_⟩
  rintro (hstat | ⟨e, he, hne⟩)
  · exact Option.noConfusion hstat
  · injection he with h2
    exact hne h2.symm

theorem fetch_result_status_error_exactly_one_witness :
    ((({ username := "bob", error := some "Proxy connect timeout",
         proxy := none } : FetchResult).status = some "ok" ∧
      ({ username := "bob", error := some "Proxy connect timeout",
         proxy := none } : FetchResult).error = none) ∨
     (({ username := "bob", error := some "Proxy connect timeout",
         proxy := none } : FetchResult).status = none ∧
      ∃ e, ({ username := "bob", error := some "Proxy connect timeout",
              proxy := none } : FetchResult).error = some e)) ∧
    (∀ e, ({ username := "bob", error := some "Proxy connect timeout",
             proxy := none } : FetchResult).error = some e → e = "" →
      HttpOutcome.exc TransportError.connectTimeout =
        HttpOutcome.exc (TransportError.other "")) :=
  fetch_result_status_error_exactly_one "bob" BASE_HEADERS HTTPX_TIMEOUT none
    (HttpOutcome.exc TransportError.connectTimeout)
    { username := "bob", error := some "Proxy connect timeout", proxy := none } rfl

/-! ## C3: totality of fetch_profile -/

/-- Claim C3: the code violates the never-raises contract.  A 200 response
whose body parses as JSON that is not an object (a list, a number, a
string) makes `data.get("error")` raise `AttributeError` -- the
`isinstance(data, dict)` guard only comes later, on the success path. -/
theorem fetch_profile_nondict_body_raises :
    fetch_profile "alice" BASE_HEADERS HTTPX_TIMEOUT none
        (HttpOutcome.resp { status_code := 200, body := Except.ok (Json.arr []) })
      = Except.error "AttributeError: list object has no attribute get" ∧
    fetch_profile "alice" BASE_HEADERS HTTPX_TIMEOUT none
        (HttpOutcome.resp { status_code := 200, body := Except.ok (Json.num 3) })
      = Except.error "AttributeError: int object has no attribute get" ∧
    fetch_profile "alice" BASE_HEADERS HTTPX_TIMEOUT none
        (HttpOutcome.resp { status_code := 200, body := Except.ok (Json.str "x") })
      = Except.error "AttributeError: str object has no attribute get" :=
  ⟨rfl, rfl, rfl⟩

/-! ## C1: length and order preservation -/

/-- Claim C1: whenever `run_scrape` returns over a non-empty username
list, its result list has the input's length and preserves its order --
entry `i` is the fetch result for `usernames[i]` and echoes that username
-- and no entry is dropped even when that username's fetch failed (a
classified failure still contributes its error record). -/
theorem run_scrape_preserves_length_and_order (usernames : List String)
    (hs : List (String × String)) (t : Timeout) (pc : Option ProxyConfig)
    (oracle : String → HttpOutcome) (m : Int) (rs : List FetchResult)
    (hne : usernames ≠ [])
    (h : run_scrape usernames hs t pc oracle m = Except.ok { results := rs }) :
    rs.length = usernames.length ∧
    ∀ i u, usernames.get? i = some u → ∃ r, rs.get? i = some r ∧ r.username = u := by
  simp only [run_scrape] at h
  cases hg : gatherResults (fun u => fetch_profile u hs t pc (oracle u)) usernames with
  | error e => rw [hg] at h; exact Except.noConfusion h
  | ok rs2 =>
    rw [hg] at h
    injection h with h2
    injection h2 with h3
    subst h3
    obtain ⟨hlen, hget⟩ := gatherResults_ok_spec _ usernames rs2 hg
    refine ⟨hlen, ?_⟩
    intro i u hu
    obtain ⟨r, hr, hf⟩ := hget i u hu
    exact ⟨r, hr, fetch_profile_ok_username u hs t pc (oracle u) r hf⟩

theorem run_scrape_preserves_length_and_order_witness :
    demoResults.length = (["alice", "bob"] : List String).length ∧
    ∀ i u, (["alice", "bob"] : List String).get? i = some u →
      ∃ r, demoResults.get? i = some r ∧ r.username = u :=
  run_scrape_preserves_length_and_order ["alice", "bob"] BASE_HEADERS HTTPX_TIMEOUT none
    demoOracle 10 demoResults (by decide) rfl

/-! ## C6: transport failure classification -/

/-- Claim C6: each of the five transport failure kinds (connect timeout,
connect error, write timeout, read timeout, uncategorized) yields an
error result carrying the proxy URL used, with no `status_code` and no
`status` key, and with the classification table's distinct message; a
connect timeout in particular reports "Proxy connect timeout". -/
theorem fetch_transport_classified (u : String) (hs : List (String × String)) (t : Timeout)
    (pc : Option ProxyConfig) (e : TransportError) :
    ∃ r, fetch_profile u hs t pc (HttpOutcome.exc e) = Except.ok r ∧
      r.error = some (transport_message e) ∧
      r.status_code = none ∧ r.status = none ∧
      r.proxy = pc.map ProxyConfig.new_url ∧
      transport_message TransportError.connectTimeout = "Proxy connect timeout" ∧
      transport_message TransportError.connectError = "Proxy connect error" ∧
      transport_message TransportError.writeTimeout = "Proxy write timeout" ∧
      transport_message TransportError.readTimeout = "Proxy read timeout" ∧
      ∀ msg, transport_message (TransportError.other msg) = msg := by
  cases e <;> exact ⟨_, rfl, rfl, rfl, rfl, rfl, rfl, rfl, rfl, rfl, fun msg => rfl⟩

/-! ## C5: embedded upstream error -/

/-- Claim C5: a 200 response whose parsed payload carries a truthy
embedded `error` field becomes an error result whose `status_code` is the
payload's declared status code, defaulting to 500 when the payload
declares none. -/
theorem fetch_embedded_error_status (u : String) (hs : List (String × String)) (t : Timeout)
    (pc : Option ProxyConfig) (fields : List (String × Json)) (ev : Json)
    (hev : jlookup fields "error" = some ev) (ht : truthy ev = true) :
    ∃ r, fetch_profile u hs t pc
        (HttpOutcome.resp { status_code := 200, body := Except.ok (Json.obj fields) })
        = Except.ok r ∧
      r.error = some ("Failed to fetch user details: " ++ pyStr ev) ∧
      r.status = none ∧
      r.status_code = some ((jlookup fields "status_code").getD (Json.num 500)) ∧
      (jlookup fields "status_code" = none → r.status_code = some (Json.num 500)) ∧
      (∀ sc, jlookup fields "status_code" = some sc → r.status_code = some sc) := by
  have hfetch : fetch_profile u hs t pc
      (HttpOutcome.resp { status_code := 200, body := Except.ok (Json.obj fields) })
      = Except.ok { username := u,
                    error := some ("Failed to fetch user details: " ++ pyStr ev),
                    status_code := some ((jlookup fields "status_code").getD (Json.num 500)),
                    proxy := pc.map ProxyConfig.new_url } := by
    simp only [fetch_profile, pyGet]
    norm_num [hev, ht]
  refine ⟨_, hfetch, rfl, rfl, rfl, ?_, ?_⟩
  · intro hn; rw [hn]; rfl
  · intro sc hsc; rw [hsc]; rfl

theorem fetch_embedded_error_status_witness :
    ∃ r, fetch_profile "alice" BASE_HEADERS HTTPX_TIMEOUT none
        (HttpOutcome.resp { status_code := 200,
                            body := Except.ok (Json.obj [("error", Json.str "rate limited")]) })
        = Except.ok r ∧
      r.error = some ("Failed to fetch user details: " ++ pyStr (Json.str "rate limited")) ∧
      r.status = none ∧
      r.status_code = some ((jlookup [("error", Json.str "rate limited")] "status_code").getD (Json.num 500)) ∧
      (jlookup [("error", Json.str "rate limited")] "status_code" = none →
        r.status_code = some (Json.num 500)) ∧
      (∀ sc, jlookup [("error", Json.str "rate limited")] "status_code" = some sc →
        r.status_code = some sc) :=
  fetch_embedded_error_status "alice" BASE_HEADERS HTTPX_TIMEOUT none
    [("error", Json.str "rate limited")] (Json.str "rate limited") rfl rfl


/-! ## C4 and C10: the success branch -/

/-- The success branch computes exactly the spec's safe nested lookups:
under the shape conditions that make the dynamic accesses defined, the
code's `data.get("data", ...).get("user", ...)` chain equals
`spec_nested_user`, every extracted field is the lookup's value
(defaulting to null when absent at any level), and the picture URL is the
Python `or` of the two candidates. -/
theorem fetch_success_branch (u : String) (hs : List (String × String)) (t : Timeout)
    (pc : Option ProxyConfig) (fields : List (String × Json))
    (hnoerr : truthy ((jlookup fields "error").getD Json.null) = false)
    (hshape : dataShapeOk fields = true)
    (hedge : userShapeOk (spec_nested_user fields) = true) :
    fetch_profile u hs t pc
        (HttpOutcome.resp { status_code := 200, body := Except.ok (Json.obj fields) })
      = Except.ok { username := u,
                    user_id := some ((jlookup (spec_nested_user fields) "id").getD Json.null),
                    followers_count := some (spec_edge_count (spec_nested_user fields) "edge_followed_by"),
                    following_count := some (spec_edge_count (spec_nested_user fields) "edge_follow"),
                    full_name := some ((jlookup (spec_nested_user fields) "full_name").getD Json.null),
                    is_private := some ((jlookup (spec_nested_user fields) "is_private").getD Json.null),
                    is_verified := some ((jlookup (spec_nested_user fields) "is_verified").getD Json.null),
                    profile_pic_url := some (pyOr
                      ((jlookup (spec_nested_user fields) "profile_pic_url_hd").getD Json.null)
                      ((jlookup (spec_nested_user fields) "profile_pic_url").getD Json.null)),
                    raw := some (Json.obj fields),
                    status := some "ok",
                    proxy := pc.map ProxyConfig.new_url } := by
  have huser : pyGet ((jlookup fields "data").getD (Json.obj [])) "user" (Json.obj [])
      = Except.ok (Json.obj (spec_nested_user fields)) := by
    cases hd : jlookup fields "data" with
    | none =>
      simp only [hd, Option.getD, pyGet_obj, spec_nested_user]
      rfl
    | some v =>
      simp only [dataShapeOk, hd] at hshape
      cases v with
      | obj df =>
        simp only [Option.getD, pyGet_obj, spec_nested_user, hd]
        cases hu : jlookup df "user" with
        | none => simp only [hu]
        | some w =>
          simp only [hu] at hshape ⊢
          cases w with
          | null => simp at hshape
          | bool b => simp at hshape
          | num n => simp at hshape
          | str s => simp at hshape
          | arr l => simp at hshape
          | obj uf => rfl
      | null => simp at hshape
      | bool b => simp at hshape
      | num n => simp at hshape
      | str s => simp at hshape
      | arr l => simp at hshape
  have hedgeSplit := hedge
  simp only [userShapeOk, Bool.and_eq_true] at hedgeSplit
  have hcount1 : pyGet ((jlookup (spec_nested_user fields) "edge_followed_by").getD (Json.obj []))
      "count" Json.null = Except.ok (spec_edge_count (spec_nested_user fields) "edge_followed_by") := by
    have hb := hedgeSplit.1
    cases he : jlookup (spec_nested_user fields) "edge_followed_by" with
    | none =>
      simp only [he, Option.getD, pyGet_obj, spec_edge_count]
      rfl
    | some v =>
      rw [he] at hb
      cases v with
      | obj l => simp only [he, Option.getD, pyGet_obj, spec_edge_count]
      | null => simp at hb
      | bool b => simp at hb
      | num n => simp at hb
      | str s => simp at hb
      | arr l => simp at hb
  have hcount2 : pyGet ((jlookup (spec_nested_user fields) "edge_follow").getD (Json.obj []))
      "count" Json.null = Except.ok (spec_edge_count (spec_nested_user fields) "edge_follow") := by
    have hb := hedgeSplit.2
    cases he : jlookup (spec_nested_user fields) "edge_follow" with
    | none =>
      simp only [he, Option.getD, pyGet_obj, spec_edge_count]
      rfl
    | some v =>
      rw [he] at hb
      cases v with
      | obj l => simp only [he, Option.getD, pyGet_obj, spec_edge_count]
      | null => simp at hb
      | bool b => simp at hb
      | num n => simp at hb
      | str s => simp at hb
      | arr l => simp at hb
  simp only [fetch_profile, pyGet_obj, Json.isDict]
  norm_num [hnoerr]
  rw [huser]
  simp only [pyGet_obj]
  rw [hcount1, hcount2]

/-- Claim C4 (amended): for a 200 response whose parsed body is an object
with no truthy embedded error (and whose present nested levels are
objects, cf. the C3 crash), the success record is built by safe nested
lookups defaulting to an empty object at each absent level: a body
missing the nested user object entirely yields `status == "ok"` with all
extracted fields null, and `profile_pic_url` is the high-resolution URL
when present AND truthy, falling back to the standard URL when it is
absent or falsy. -/
theorem fetch_success_safe_defaults (u : String) (hs : List (String × String)) (t : Timeout)
    (pc : Option ProxyConfig) (fields : List (String × Json))
    (hnoerr : truthy ((jlookup fields "error").getD Json.null) = false)
    (hshape : dataShapeOk fields = true)
    (hedge : userShapeOk (spec_nested_user fields) = true) :
    ∃ r, fetch_profile u hs t pc
        (HttpOutcome.resp { status_code := 200, body := Except.ok (Json.obj fields) })
        = Except.ok r ∧
      r.status = some "ok" ∧ r.error = none ∧
      r.user_id = some ((jlookup (spec_nested_user fields) "id").getD Json.null) ∧
      r.followers_count = some (spec_edge_count (spec_nested_user fields) "edge_followed_by") ∧
      r.following_count = some (spec_edge_count (spec_nested_user fields) "edge_follow") ∧
      r.full_name = some ((jlookup (spec_nested_user fields) "full_name").getD Json.null) ∧
      r.is_private = some ((jlookup (spec_nested_user fields) "is_private").getD Json.null) ∧
      r.is_verified = some ((jlookup (spec_nested_user fields) "is_verified").getD Json.null) ∧
      r.raw = some (Json.obj fields) ∧
      (spec_nested_user fields = [] →
        r.user_id = some Json.null ∧ r.followers_count = some Json.null ∧
        r.following_count = some Json.null ∧ r.full_name = some Json.null ∧
        r.is_private = some Json.null ∧ r.is_verified = some Json.null ∧
        r.profile_pic_url = some Json.null) ∧
      (∀ v, jlookup (spec_nested_user fields) "profile_pic_url_hd" = some v → truthy v = true →
        r.profile_pic_url = some v) ∧
      ((∀ v, jlookup (spec_nested_user fields) "profile_pic_url_hd" = some v → truthy v = false) →
        r.profile_pic_url = some ((jlookup (spec_nested_user fields) "profile_pic_url").getD Json.null)) := by
  refine ⟨_, fetch_success_branch u hs t pc fields hnoerr hshape hedge,
    rfl, rfl, rfl, rfl, rfl, rfl, rfl, rfl, rfl, ?_, ?_, ?_⟩
  · intro hempty
    refine ⟨?_, ?_, ?_, ?_, ?_, ?_, ?_⟩ <;>
      simp [hempty, jlookup, spec_edge_count, pyOr, truthy]
  · intro v hv htv
    show some (pyOr ((jlookup (spec_nested_user fields) "profile_pic_url_hd").getD Json.null)
      ((jlookup (spec_nested_user fields) "profile_pic_url").getD Json.null)) = some v
    rw [hv]
    simp [pyOr, htv]
  · intro hall
    show some (pyOr ((jlookup (spec_nested_user fields) "profile_pic_url_hd").getD Json.null)
      ((jlookup (spec_nested_user fields) "profile_pic_url").getD Json.null)) = _
    cases hv : jlookup (spec_nested_user fields) "profile_pic_url_hd" with
    | none => simp [pyOr, truthy]
    | some v =>
      have hfv := hall v hv
      simp [pyOr, hfv]

/-- Claim C4, counterexample to the claim as stated: when the
high-resolution URL key is present but bound to the empty string, the
code's `or` falls back to the standard URL, so `profile_pic_url` is not
"the high-resolution URL when present". -/
theorem fetch_pic_present_falsy_counterexample :
    (fetch_profile "alice" BASE_HEADERS HTTPX_TIMEOUT none
        (HttpOutcome.resp { status_code := 200, body := Except.ok picBody })).toOption.map
        FetchResult.profile_pic_url = some (some (Json.str "https://cdn/std.jpg")) ∧
    jlookup picUserFields "profile_pic_url_hd" = some (Json.str "") ∧
    Json.str "https://cdn/std.jpg" ≠ Json.str "" := by
  refine ⟨rfl, rfl, ?_⟩
  intro h
  injection h with h2
  exact absurd h2 (by decide)

theorem fetch_success_safe_defaults_witness :
    ∃ r, fetch_profile "alice" BASE_HEADERS HTTPX_TIMEOUT none
        (HttpOutcome.resp { status_code := 200, body := Except.ok (Json.obj []) })
        = Except.ok r ∧
      r.status = some "ok" ∧ r.profile_pic_url = some Json.null := by
  obtain ⟨r, hr, hst, _, _, _, _, _, _, _, _, hempty, _, _⟩ :=
    fetch_success_safe_defaults "alice" BASE_HEADERS HTTPX_TIMEOUT none [] rfl rfl rfl
  exact ⟨r, hr, hst, (hempty rfl).2.2.2.2.2.2⟩

/-- Claim C10 (amended): a 200 response whose parsed body is an object
binding "error" to a falsy value (null, "", 0, false, empty containers)
is not treated as an upstream-reported error -- the check tests
truthiness, not key presence -- and, provided the nested levels that are
present are objects (cf. the C3 crash), the function returns a success
record with `status == "ok"`, no error and no status_code. -/
theorem fetch_falsy_error_not_upstream_error (u : String) (hs : List (String × String))
    (t : Timeout) (pc : Option ProxyConfig) (fields : List (String × Json)) (ev : Json)
    (hev : jlookup fields "error" = some ev) (hf : truthy ev = false)
    (hshape : dataShapeOk fields = true)
    (hedge : userShapeOk (spec_nested_user fields) = true) :
    ∃ r, fetch_profile u hs t pc
        (HttpOutcome.resp { status_code := 200, body := Except.ok (Json.obj fields) })
        = Except.ok r ∧
      r.status = some "ok" ∧ r.error = none ∧ r.status_code = none := by
  have hnoerr : truthy ((jlookup fields "error").getD Json.null) = false := by
    rw [hev]
    exact hf
  exact ⟨_, fetch_success_branch u hs t pc fields hnoerr hshape hedge, rfl, rfl, rfl⟩

/-- Claim C10, counterexample to the claim as stated: a falsy "error" key
is indeed not treated as an upstream error, but the success record is not
always returned -- with `data` bound to a non-object the nested access
raises instead. -/
theorem fetch_falsy_error_crash_counterexample :
    fetch_profile "alice" BASE_HEADERS HTTPX_TIMEOUT none
        (HttpOutcome.resp { status_code := 200,
                            body := Except.ok (Json.obj [("error", Json.null), ("data", Json.num 5)]) })
      = Except.error "AttributeError: int object has no attribute get" ∧
    truthy Json.null = false := ⟨rfl, rfl⟩

theorem fetch_falsy_error_not_upstream_error_witness :
    ∃ r, fetch_profile "alice" BASE_HEADERS HTTPX_TIMEOUT none
        (HttpOutcome.resp { status_code := 200,
                            body := Except.ok (Json.obj [("error", Json.bool false),
                              ("data", Json.obj [("user", Json.obj [("id", Json.str "1")])])]) })
        = Except.ok r ∧
      r.status = some "ok" ∧ r.error = none ∧ r.status_code = none :=
  fetch_falsy_error_not_upstream_error "alice" BASE_HEADERS HTTPX_TIMEOUT none
    [("error", Json.bool false), ("data", Json.obj [("user", Json.obj [("id", Json.str "1")])])]
    (Json.bool false) rfl rfl rfl rfl

/-! ## C9 and C8: the semaphore scheduler -/

theorem countP_set_of_get? (p : TaskState → Bool) :
    ∀ (l : List TaskState) (i : Nat) (a x : TaskState), l.get? i = some x →
      (l.set i a).countP p + (if p x then 1 else 0) = l.countP p + (if p a then 1 else 0) := by
  intro l
  induction l with
  | nil => intro i a x hx; simp at hx
  | cons y ys ih =>
    intro i a x hx
    cases i with
    | zero =>
      simp only [List.get?] at hx
      injection hx with hx2
      subst hx2
      simp only [List.set, List.countP_cons]
      omega
    | succ n =>
      simp only [List.get?] at hx
      have h2 := ih n a x hx
      simp only [List.set, List.countP_cons]
      omega

theorem inFlightCount_init (usernames : List String) (m : Int) :
    inFlightCount (run_scrape_sched_init usernames m) = 0 := by
  simp only [inFlightCount, run_scrape_sched_init, List.countP_map]
  induction usernames with
  | nil => rfl
  | cons u us ih => simp [List.countP_cons, TaskState.isInFlight, ih]

theorem sched_step_cap (s s2 : SchedState) (hstep : SchedStep s s2) : s2.cap = s.cap := by
  cases hstep with
  | acquire i hp hcap => rfl
  | complete i r hf => rfl

/-- One scheduler step keeps the in-flight count within the semaphore
capacity: an acquire is guarded by the capacity, a completion frees a slot. -/
theorem sched_step_invariant (s s2 : SchedState) (hstep : SchedStep s s2)
    (hinv : inFlightCount s ≤ s.cap) : inFlightCount s2 ≤ s2.cap := by
  cases hstep with
  | acquire i hp hcap =>
    have hc := countP_set_of_get? (fun t => t.isInFlight) s.tasks i TaskState.inFlight
      TaskState.pending hp
    norm_num [show TaskState.pending.isInFlight = false from rfl,
      show TaskState.inFlight.isInFlight = true from rfl] at hc
    simp only [startTask, inFlightCount] at *
    omega
  | complete i r hf =>
    have hc := countP_set_of_get? (fun t => t.isInFlight) s.tasks i (TaskState.done r)
      TaskState.inFlight hf
    norm_num [show (TaskState.done r).isInFlight = false from rfl,
      show TaskState.inFlight.isInFlight = true from rfl] at hc
    simp only [completeTask, inFlightCount] at *
    omega

theorem sched_reach_invariant (s0 s : SchedState)
    (hreach : Relation.ReflTransGen SchedStep s0 s) (hinv : inFlightCount s0 ≤ s0.cap) :
    inFlightCount s ≤ s.cap ∧ s.cap = s0.cap := by
  induction hreach with
  | refl => exact ⟨hinv, rfl⟩
  | tail hr hstep ih =>
    obtain ⟨h1, h2⟩ := ih
    refine ⟨sched_step_invariant _ _ hstep h1, ?_⟩
    rw [sched_step_cap _ _ hstep, h2]

/-- Claim C9: in every state the scheduler can reach from `run_scrape`'s
initial state, the number of in-flight fetches never exceeds the
configured maximum (for any input size and any maximum ≥ 1); and any
in-flight fetch may complete with any result -- a failure record
included -- in a step that leaves every other task's state untouched and
leaves spare capacity, so no other in-flight or pending fetch is aborted
or delayed by it. -/
theorem run_scrape_bounded_concurrency (usernames : List String) (m : Int) (s : SchedState)
    (hm : 1 ≤ m)
    (hreach : Relation.ReflTransGen SchedStep (run_scrape_sched_init usernames m) s) :
    inFlightCount s ≤ m.toNat ∧
    (∀ i r, s.tasks.get? i = some TaskState.inFlight →
      SchedStep s (completeTask s i r) ∧
      (∀ j, j ≠ i → (completeTask s i r).tasks.get? j = s.tasks.get? j) ∧
      inFlightCount (completeTask s i r) < s.cap) := by
  have hinit : inFlightCount (run_scrape_sched_init usernames m)
      ≤ (run_scrape_sched_init usernames m).cap := by
    rw [inFlightCount_init]
    exact Nat.zero_le _
  obtain ⟨hinv, hcap⟩ := sched_reach_invariant _ _ hreach hinit
  have hcapval : s.cap = m.toNat := by
    rw [hcap]
    show (semCapacity m).toNat = m.toNat
    simp only [semCapacity]
    omega
  constructor
  · rw [← hcapval]
    exact hinv
  · intro i r hf
    refine ⟨SchedStep.complete s i r hf, ?_, ?_⟩
    · intro j hj
      exact List.get?_set_ne _ _ (fun h => hj h.symm)
    · have hc := countP_set_of_get? (fun t => t.isInFlight) s.tasks i (TaskState.done r)
        TaskState.inFlight hf
      norm_num [show (TaskState.done r).isInFlight = false from rfl,
        show TaskState.inFlight.isInFlight = true from rfl] at hc
      have hpos : 0 < inFlightCount s := by
        rw [inFlightCount]
        rw [List.countP_pos]
        exact ⟨TaskState.inFlight, List.get?_mem hf, rfl⟩
      have hcap1 : 1 ≤ s.cap := by
        rw [hcapval]
        omega
      simp only [inFlightCount, completeTask] at *
      omega

theorem run_scrape_bounded_concurrency_witness :
    inFlightCount demoSchedMid ≤ (1 : Int).toNat ∧
    (∀ i r, demoSchedMid.tasks.get? i = some TaskState.inFlight →
      SchedStep demoSchedMid (completeTask demoSchedMid i r) ∧
      (∀ j, j ≠ i → (completeTask demoSchedMid i r).tasks.get? j = demoSchedMid.tasks.get? j) ∧
      inFlightCount (completeTask demoSchedMid i r) < demoSchedMid.cap) :=
  run_scrape_bounded_concurrency ["alice", "bob"] 1 demoSchedMid (by decide)
    (Relation.ReflTransGen.single (SchedStep.acquire demoSchedInit 0 rfl (by decide)))

/-- Claim C8: the semaphore `run_scrape` constructs is created with value
`max(1, max_concurrency)` -- a maximum configured as 0 or negative is
floored to 1, a maximum ≥ 1 is used as given, the effective value is
always ≥ 1, and the default parameter value 10 yields capacity 10. -/
theorem run_scrape_concurrency_floor :
    (∀ m : Int, m ≤ 0 → semCapacity m = 1) ∧
    (∀ m : Int, 1 ≤ m → semCapacity m = m) ∧
    (∀ m : Int, 1 ≤ semCapacity m) ∧
    semCapacity run_scrape_default_max_concurrency = 10 ∧
    (∀ (usernames : List String) (m : Int),
      (run_scrape_sched_init usernames m).cap = (semCapacity m).toNat) := by
  refine ⟨?_, ?_, ?_, rfl, fun usernames m => rfl⟩
  · intro m hm
    simp only [semCapacity]
    omega
  · intro m hm
    simp only [semCapacity]
    omega
  · intro m
    simp only [semCapacity]
    omega

theorem run_scrape_concurrency_floor_witness :
    semCapacity 0 = 1 ∧ semCapacity (-5) = 1 ∧ semCapacity 7 = 7 ∧
    semCapacity run_scrape_default_max_concurrency = 10 := by
  have h := run_scrape_concurrency_floor
  exact ⟨h.1 0 (by decide), h.1 (-5) (by decide), h.2.1 7 (by decide), h.2.2.2.1⟩

/-! ## C7: the input boundary -/

/-- When `run_scrape` returns, each entry is the fetch of the
corresponding username, positionally. -/
theorem run_scrape_ok_spec (usernames : List String) (hs : List (String × String)) (t : Timeout)
    (pc : Option ProxyConfig) (oracle : String → HttpOutcome) (m : Int) (rs : List FetchResult)
    (h : run_scrape usernames hs t pc oracle m = Except.ok { results := rs }) :
    rs.length = usernames.length ∧
    ∀ i u, usernames.get? i = some u → ∃ r, rs.get? i = some r ∧
      fetch_profile u hs t pc (oracle u) = Except.ok r := by
  simp only [run_scrape] at h
  cases hg : gatherResults (fun u => fetch_profile u hs t pc (oracle u)) usernames with
  | error e => rw [hg] at h; exact Except.noConfusion h
  | ok rs2 =>
    rw [hg] at h
    injection h with h2
    injection h2 with h3
    subst h3
    exact gatherResults_ok_spec _ usernames rs2 hg

/-- Claim C7: `main` discards non-string entries and entries blank after
stripping; when nothing survives (input `[]` or `["", "  "]` included) it
writes the input-error payload "usernames list is required" and performs
no fetch; otherwise it runs the scrape over exactly the surviving
usernames, and each surviving username is fetched. -/
theorem main_input_boundary (pc : Option ProxyConfig) (oracle : String → HttpOutcome) :
    (main_run [] pc oracle = MainResult.inputError "usernames list is required") ∧
    (main_run [Json.str "", Json.str "  "] pc oracle
      = MainResult.inputError "usernames list is required") ∧
    (∀ raw, clean_usernames raw = [] →
      main_run raw pc oracle = MainResult.inputError "usernames list is required") ∧
    (∀ raw v, v ∈ clean_usernames raw → ∃ s, Json.str s ∈ raw ∧ pyStrip s = v ∧ v ≠ "") ∧
    (∀ raw s, Json.str s ∈ raw → pyStrip s ≠ "" → pyStrip s ∈ clean_usernames raw) ∧
    (∀ raw, clean_usernames raw ≠ [] →
      main_run raw pc oracle = MainResult.output
        (run_scrape (clean_usernames raw) BASE_HEADERS HTTPX_TIMEOUT pc oracle 10) ∧
      ∀ rs, run_scrape (clean_usernames raw) BASE_HEADERS HTTPX_TIMEOUT pc oracle 10
          = Except.ok { results := rs } →
        rs.length = (clean_usernames raw).length ∧
        ∀ i u, (clean_usernames raw).get? i = some u →
          ∃ r, rs.get? i = some r ∧
            fetch_profile u BASE_HEADERS HTTPX_TIMEOUT pc (oracle u) = Except.ok r) := by
  refine ⟨rfl, rfl, ?_, ?_, ?_, ?_⟩
  · intro raw h
    simp [main_run, h]
  · intro raw v hv
    simp only [clean_usernames, List.mem_filterMap] at hv
    obtain ⟨a, ha, hfa⟩ := hv
    cases a with
    | str s =>
      have hfa2 : (if pyStrip s ≠ "" then some (pyStrip s) else none) = some v := hfa
      by_cases hne : pyStrip s = ""
      · rw [if_neg (not_not_intro hne)] at hfa2
        exact Option.noConfusion hfa2
      · rw [if_pos hne] at hfa2
        injection hfa2 with h2
        exact ⟨s, ha, h2, h2 ▸ hne⟩
    | null => exact Option.noConfusion hfa
    | bool b => exact Option.noConfusion hfa
    | num n => exact Option.noConfusion hfa
    | arr l => exact Option.noConfusion hfa
    | obj l => exact Option.noConfusion hfa
  · intro raw s hs hne
    simp only [clean_usernames, List.mem_filterMap]
    refine ⟨Json.str s, hs, ?_⟩
    show (if pyStrip s ≠ "" then some (pyStrip s) else none) = some (pyStrip s)
    rw [if_pos hne]
  · intro raw h
    have hne : (clean_usernames raw).isEmpty = false := by
      cases hcl : clean_usernames raw with
      | nil => exact absurd hcl h
      | cons a l => rfl
    constructor
    · simp [main_run, hne]
    · intro rs hrs
      exact run_scrape_ok_spec _ _ _ _ _ _ _ hrs

theorem main_input_boundary_witness :
    main_run [] none demoOracle = MainResult.inputError "usernames list is required" ∧
    main_run [Json.str " alice ", Json.num 3, Json.str "  "] none demoOracle
      = MainResult.output (run_scrape ["alice"] BASE_HEADERS HTTPX_TIMEOUT none demoOracle 10) := by
  have h := main_input_boundary none demoOracle
  refine ⟨h.1, ?_⟩
  have h6 := (h.2.2.2.2.2) [Json.str " alice ", Json.num 3, Json.str "  "] (by decide)
  exact h6.1
